import Mathlib

/-!
Verification of the paymentService subscription-lifecycle orchestrator.

The Go sources are embedded shallowly:

* `internal/services/payment/payment.go` — the orchestrator.  Each processor
  call site (Stripe customer get/create/update, payment-method attach,
  subscription new/get/cancel) is modelled either by passing the processor's
  response in as an explicit argument (the "oracle" form, which embeds exactly
  the orchestrator's own branching), or, where a claim is about two calls in
  sequence, by a small explicit processor state that supplies those responses.
  Every function also returns the list of processor calls it issued, so that
  "without contacting the processor" is a statement about that list.
* `internal/grpc/payment/server.go` — the transport adapter, together with a
  model of Go's `strconv.ParseInt`.

Machine integers: `planID` is an `int32` and user IDs are `int64` in Go; the
orchestrator only compares them and stringifies them, so they are modelled as
`Int` (no overflow is reachable in the modelled code paths).  The `int32`
conversion in the transport adapter is modelled with an explicit wrap.
-/

deriving instance DecidableEq for Except

namespace PaymentService

/-- Outcome enum of `payment.Status` (proto), as used by the orchestrator. -/
inductive Status where
  | ok
  | invalidUser
  | invalidPlan
  | invalidPaymentMethod
  | internalError
  deriving Repr, DecidableEq

/-- Lifecycle status enum of `payment.SubscriptionStatus` (proto). -/
inductive SubscriptionStatus where
  | unspecified
  | active
  | canceled
  | incompleteExpired
  | unpaid
  | trialing
  deriving Repr, DecidableEq

/-- A Stripe subscription object as far as the orchestrator reads it:
its ID, its status string (Stripe statuses are strings such as "active"),
and the price IDs of its items (`Items.Data[i].Price.ID`). -/
structure StripeSub where
  id : String
  status : String
  items : List String
  deriving Repr, DecidableEq

/-- The processor calls the orchestrator can issue. -/
inductive ProcCall where
  | customerResolve   -- customer.Get / customer.New inside getOrCreateCustomer
  | pmAttach          -- paymentmethod.Attach
  | customerUpdate    -- customer.Update (set default payment method)
  | subNew            -- subscription.New
  | subGet            -- subscription.Get
  | subCancel         -- subscription.Cancel
  deriving Repr, DecidableEq

/-- Record `data.Subscription` (internal/data): the record returned to callers. -/
structure DataSubscription where
  id : String
  planID : String
  stripeSubID : String
  status : SubscriptionStatus
  currentPeriodEnd : Int
  deriving Repr, DecidableEq

/-- The zero value `data.Subscription{}` returned on every degraded path. -/
def emptyDataSubscription : DataSubscription :=
  { id := "", planID := "", stripeSubID := "", status := SubscriptionStatus.unspecified,
    currentPeriodEnd := 0 }

/-- Function `mapPlanIDToStripePrice` (payment.go): the fixed plan catalog. -/
def mapPlanIDToStripePrice (planID : Int) : String :=
  if planID = 1 then "price_basic_123"
  else if planID = 2 then "price_pro_456"
  else ""

/-- Function `getPaymentStatusFromStripe` (payment.go): maps the processor status string to
the proto enum; the Stripe constants compared against are the strings
"active", "canceled", "incomplete_expired", "unpaid", "trialing". -/
def getPaymentStatusFromStripe (subscriptionStatus : String) : SubscriptionStatus :=
  if subscriptionStatus = "active" then SubscriptionStatus.active
  else if subscriptionStatus = "canceled" then SubscriptionStatus.canceled
  else if subscriptionStatus = "incomplete_expired" then SubscriptionStatus.incompleteExpired
  else if subscriptionStatus = "unpaid" then SubscriptionStatus.unpaid
  else if subscriptionStatus = "trialing" then SubscriptionStatus.trialing
  else SubscriptionStatus.unspecified

/-- The processor responses `CreateSubscription` consumes, passed in as the
oracle: the outcome of `getOrCreateCustomer`, of `attachPaymentMethod`, of
`setDefaultPaymentMethod`, and of `subscription.New`. -/
structure CreateResponses where
  customerResult : Except Unit String
  attachResult : Except Unit Unit
  setDefaultResult : Except Unit Unit
  subNewResult : Except Unit StripeSub
  deriving Repr, DecidableEq

/-- Method `CreateSubscription` (payment.go, lines 55-184).  Here `userID?` is the
identity read from the call context (`none` when absent or of the wrong
type).  Returns the (subscription ID, Status) pair the Go method returns,
paired with the list of processor calls issued, in order. -/
def createSubscription (userID? : Option Int) (planID : Int) (paymentMethodID : String)
    (r : CreateResponses) : (String × Status) × List ProcCall :=
  match userID? with
  | none => (("", Status.invalidUser), [])
  | some _ =>
    let stripePrice := mapPlanIDToStripePrice planID
    if stripePrice = "" then
      (("", Status.invalidPlan), [])
    else if paymentMethodID = "" then
      (("", Status.invalidPaymentMethod), [])
    else
      match r.customerResult with
      | Except.error _ => (("", Status.internalError), [ProcCall.customerResolve])
      | Except.ok _customerID =>
        match r.attachResult with
        | Except.error _ =>
            (("", Status.invalidPaymentMethod), [ProcCall.customerResolve, ProcCall.pmAttach])
        | Except.ok _ =>
          -- setDefaultPaymentMethod: failure is logged and the flow continues
          let callsAfterDefault := [ProcCall.customerResolve, ProcCall.pmAttach,
            ProcCall.customerUpdate]
          match r.setDefaultResult with
          | Except.error _ =>
            (match r.subNewResult with
             | Except.error _ =>
                 (("", Status.internalError), callsAfterDefault ++ [ProcCall.subNew])
             | Except.ok sub => ((sub.id, Status.ok), callsAfterDefault ++ [ProcCall.subNew]))
          | Except.ok _ =>
            match r.subNewResult with
            | Except.error _ =>
                (("", Status.internalError), callsAfterDefault ++ [ProcCall.subNew])
            | Except.ok sub => ((sub.id, Status.ok), callsAfterDefault ++ [ProcCall.subNew])

/-- Method `CancelSubscription` (payment.go, lines 191-265), oracle form: `getResult`
is the response of `subscription.Get`, `cancelResult` the response of
`subscription.Cancel` (consumed only when the cancel request is issued). -/
def cancelSubscription (stripeSubID : String) (getResult : Except Unit StripeSub)
    (cancelResult : Except Unit StripeSub) : Status × List ProcCall :=
  if stripeSubID = "" then
    (Status.internalError, [])
  else
    match getResult with
    | Except.error _ => (Status.internalError, [ProcCall.subGet])
    | Except.ok existingSub =>
      if existingSub.status = "canceled" then
        (Status.ok, [ProcCall.subGet])
      else
        match cancelResult with
        | Except.error _ => (Status.internalError, [ProcCall.subGet, ProcCall.subCancel])
        | Except.ok subscription =>
          if subscription.status = "canceled" then
            (Status.ok, [ProcCall.subGet, ProcCall.subCancel])
          else
            (Status.internalError, [ProcCall.subGet, ProcCall.subCancel])

/-- Method `GetSubscription` (payment.go, lines 272-333), oracle form: `fetchResult`
is the response of `subscription.Get`; `endDate` is the computed default
period end (`time.Now().AddDate(0, 1, 0).Unix()`), passed in since it reads
the clock. -/
def getSubscription (stripeSubID : String) (fetchResult : Except Unit StripeSub)
    (endDate : Int) : DataSubscription :=
  if stripeSubID = "" then
    emptyDataSubscription
  else
    match fetchResult with
    | Except.error _ => emptyDataSubscription
    | Except.ok subscription =>
      match subscription.items with
      | [] => emptyDataSubscription
      | priceID :: _ =>
        { id := subscription.id, planID := priceID, stripeSubID := stripeSubID,
          status := getPaymentStatusFromStripe subscription.status,
          currentPeriodEnd := endDate }

end PaymentService

namespace PaymentService

/-! ### Processor state model for the two-call claims

For the idempotence claims the two invocations must see a shared processor.
The processor is modelled from Stripe's documented behaviour:
`subscription.Cancel` cancels the subscription immediately (its status
becomes "canceled"), `customer.Get` retrieves a customer by its processor
customer ID, and `customer.New` creates a customer under a fresh
processor-assigned ID of the form `cus_<n>` — the Stripe API offers no way
for the client to choose a customer ID, and generated IDs carry the `cus_`
prefix, so they never equal a decimal user-ID string. -/

/-- Processor-side subscription store: subscription ID to status string. -/
def SubState := List (String × String)

/-- Call `subscription.Get` against the store. -/
def subStateGet (s : SubState) (id : String) : Except Unit StripeSub :=
  match List.lookup id s with
  | none => Except.error ()
  | some st => Except.ok { id := id, status := st, items := [] }

/-- The response `subscription.Cancel` returns against the store: the
subscription with its status now "canceled" (Stripe cancels immediately). -/
def subStateCancelResult (s : SubState) (id : String) : Except Unit StripeSub :=
  match List.lookup id s with
  | none => Except.error ()
  | some _ => Except.ok { id := id, status := "canceled", items := [] }

/-- The store after `subscription.Cancel` on `id`. -/
def subStateAfterCancel (s : SubState) (id : String) : SubState :=
  s.map (fun p => if p.1 = id then (p.1, "canceled") else p)

/-- Method `CancelSubscription` run against the processor store: the orchestrator
code (`cancelSubscription`) fed with the store's responses; the store is
updated exactly when the cancel request was issued. -/
def runCancel (s : SubState) (stripeSubID : String) :
    (Status × List ProcCall) × SubState :=
  let res := cancelSubscription stripeSubID (subStateGet s stripeSubID)
    (subStateCancelResult s stripeSubID)
  if ProcCall.subCancel ∈ res.2 then (res, subStateAfterCancel s stripeSubID)
  else (res, s)

/-- A Stripe customer as far as `getOrCreateCustomer` reads it: its
processor-assigned ID and the `user_id` metadata entry set at creation. -/
structure StripeCustomer where
  id : String
  metaUserID : String
  deriving Repr, DecidableEq

/-- Processor-side customer store plus the counter for fresh customer IDs. -/
structure CustomerState where
  customers : List StripeCustomer
  nextID : Nat
  deriving Repr, DecidableEq

/-- Call `customer.Get`: retrieves a customer by its processor customer ID. -/
def customerGet (s : CustomerState) (id : String) : Except Unit StripeCustomer :=
  match s.customers.find? (fun c => c.id = id) with
  | some c => Except.ok c
  | none => Except.error ()

/-- Call `customer.New`: creates a customer under a fresh processor-assigned
`cus_<n>` ID, recording the requested metadata (creation itself succeeding). -/
def customerNew (s : CustomerState) (metaUserID : String) :
    StripeCustomer × CustomerState :=
  let c : StripeCustomer := { id := "cus_" ++ toString s.nextID, metaUserID := metaUserID }
  (c, { customers := s.customers ++ [c], nextID := s.nextID + 1 })

/-- Method `getOrCreateCustomer` (payment.go, lines 428-473) against the customer
store: look the user ID up as a customer ID; on failure create a new
customer with the user ID as `user_id` metadata; return the customer ID. -/
def getOrCreateCustomer (s : CustomerState) (userID : String) :
    (Except Unit String) × CustomerState :=
  match customerGet s userID with
  | Except.ok stripeCustomer => (Except.ok stripeCustomer.id, s)
  | Except.error _ =>
    let (newCustomer, s2) := customerNew s userID
    (Except.ok newCustomer.id, s2)

end PaymentService

namespace PaymentService

/-! ### Transport adapter (internal/grpc/payment/server.go) -/

/-- Go decimal-integer shape accepted by `strconv.ParseInt(s, 10, _)`:
an optional sign followed by at least one ASCII digit. -/
def goIntShape (s : String) : Bool :=
  let ds := match s.data with
    | '-' :: rest => rest
    | '+' :: rest => rest
    | l => l
  !ds.isEmpty && ds.all (fun c => c.isDigit)

/-- The numeric value of a digit list (most significant first). -/
def digitsVal (ds : List Char) : Nat :=
  ds.foldl (fun acc c => acc * 10 + (c.toNat - 48)) 0

/-- Go `strconv.ParseInt(s, 10, bitSize)`, modelled as (value, ok):
a syntax error yields `(0, false)`; an out-of-range value yields the
nearest representable bound and `false`; otherwise the value and `true`. -/
def goParseInt (s : String) (bitSize : Nat) : Int × Bool :=
  if goIntShape s then
    let (neg, ds) := match s.data with
      | '-' :: rest => (true, rest)
      | '+' :: rest => (false, rest)
      | l => (false, l)
    let v : Int := if neg then -(digitsVal ds : Int) else (digitsVal ds : Int)
    let lo : Int := -(2 ^ (bitSize - 1))
    let hi : Int := 2 ^ (bitSize - 1) - 1
    if v < lo then (lo, false)
    else if v > hi then (hi, false)
    else (v, true)
  else (0, false)

/-- Go `int32(x)` on an `int64` value: two's-complement wrap to 32 bits. -/
def goInt32Of (x : Int) : Int :=
  (x + 2 ^ 31) % 2 ^ 32 - 2 ^ 31

/-- The subscription payload of `payment.GetSubscriptionResponse` (proto). -/
structure GetSubscriptionResponse where
  id : Int
  planId : Int
  stripeSubscriptionId : String
  status : SubscriptionStatus
  currentPeriodEnd : Int
  deriving Repr, DecidableEq

/-- The transport `GetSubscription` handler (server.go, lines 55-73) after the
orchestrator returned `subscription`: parse `subscription.ID` as a 64-bit
decimal and fail the RPC on error; parse `subscription.PlanID` as 32-bit
decimal and IGNORE the error, using the returned value as `PlanId`. -/
def serverGetSubscription (stripeSubID : String) (subscription : DataSubscription) :
    Except Unit GetSubscriptionResponse :=
  let (subId, ok1) := goParseInt subscription.id 64
  if ok1 = false then
    Except.error ()
  else
    let (planID, _) := goParseInt subscription.planID 32
    Except.ok
      { id := subId, planId := goInt32Of planID,
        stripeSubscriptionId := stripeSubID, status := subscription.status,
        currentPeriodEnd := subscription.currentPeriodEnd }

end PaymentService

namespace PaymentService

/-! ### Claims -/

/-- C2: plan identifiers 1 and 2 resolve through the catalog to the non-empty
price references "price_basic_123" and "price_pro_456"; any other plan
identifier makes `createSubscription` (with a resolvable caller identity)
return `("", INVALID_PLAN)` having issued no processor call, for every
payment-method token and every processor behaviour. -/
theorem createSubscription_plan_catalog :
    mapPlanIDToStripePrice 1 = "price_basic_123" ∧
    mapPlanIDToStripePrice 2 = "price_pro_456" ∧
    ∀ (planID : Int), planID ≠ 1 → planID ≠ 2 →
      ∀ (uid : Int) (paymentMethodID : String) (r : CreateResponses),
        createSubscription (some uid) planID paymentMethodID r
          = (("", Status.invalidPlan), []) := by
  refine ⟨rfl, rfl, ?_⟩
  intro planID h1 h2 uid paymentMethodID r
  simp [createSubscription, mapPlanIDToStripePrice, h1, h2]

/-- Witness for C2 at plan identifier 99. -/
theorem createSubscription_plan_catalog_witness :
    createSubscription (some 7) 99 "pm_test"
      ⟨Except.ok "cus_1", Except.ok (), Except.ok (),
        Except.ok ⟨"sub_1", "active", ["price_basic_123"]⟩⟩
      = (("", Status.invalidPlan), []) :=
  createSubscription_plan_catalog.2.2 99 (by decide) (by decide) 7 "pm_test" _

/-- C6: with a resolvable caller identity and a catalog-valid plan, an empty
payment-method token makes `createSubscription` return
`("", INVALID_PAYMENT_METHOD)` having issued no processor call (in
particular no customer-resolution and no attachment call). -/
theorem createSubscription_empty_payment_method (uid planID : Int)
    (hplan : mapPlanIDToStripePrice planID ≠ "") (r : CreateResponses) :
    createSubscription (some uid) planID "" r
      = (("", Status.invalidPaymentMethod), []) := by
  simp [createSubscription, hplan]

/-- Witness for C6 at plan identifier 1. -/
theorem createSubscription_empty_payment_method_witness :
    createSubscription (some 7) 1 ""
      ⟨Except.ok "cus_1", Except.ok (), Except.ok (),
        Except.ok ⟨"sub_1", "active", ["price_basic_123"]⟩⟩
      = (("", Status.invalidPaymentMethod), []) :=
  createSubscription_empty_payment_method 7 1 (by decide) _

/-- C8: when identity, plan, token, customer resolution, payment-method
attachment and subscription creation all succeed, a failure of the
set-default-payment-method step does not change the outcome:
`createSubscription` still returns the processor-assigned subscription ID
with OK, and still issues the subscription-creation call. -/
theorem createSubscription_set_default_failure_not_critical
    (uid planID : Int) (paymentMethodID customerID : String) (sub : StripeSub)
    (hplan : mapPlanIDToStripePrice planID ≠ "") (hpm : paymentMethodID ≠ "") :
    createSubscription (some uid) planID paymentMethodID
      ⟨Except.ok customerID, Except.ok (), Except.error (), Except.ok sub⟩
      = ((sub.id, Status.ok),
          [ProcCall.customerResolve, ProcCall.pmAttach, ProcCall.customerUpdate,
            ProcCall.subNew]) := by
  simp [createSubscription, hplan, hpm]

/-- Witness for C8 at plan 1, token "pm_test". -/
theorem createSubscription_set_default_failure_not_critical_witness :
    createSubscription (some 7) 1 "pm_test"
      ⟨Except.ok "cus_1", Except.ok (), Except.error (),
        Except.ok ⟨"sub_1", "incomplete", ["price_basic_123"]⟩⟩
      = (("sub_1", Status.ok),
          [ProcCall.customerResolve, ProcCall.pmAttach, ProcCall.customerUpdate,
            ProcCall.subNew]) :=
  createSubscription_set_default_failure_not_critical 7 1 "pm_test" "cus_1"
    ⟨"sub_1", "incomplete", ["price_basic_123"]⟩ (by decide) (by decide)

/-- C4: the processor-status mapping is total and never errors: each of the
five recognized status strings maps to the correspondingly named lifecycle
status, and every other status string maps to UNSPECIFIED. -/
theorem getPaymentStatusFromStripe_total :
    getPaymentStatusFromStripe "active" = SubscriptionStatus.active ∧
    getPaymentStatusFromStripe "canceled" = SubscriptionStatus.canceled ∧
    getPaymentStatusFromStripe "incomplete_expired"
      = SubscriptionStatus.incompleteExpired ∧
    getPaymentStatusFromStripe "unpaid" = SubscriptionStatus.unpaid ∧
    getPaymentStatusFromStripe "trialing" = SubscriptionStatus.trialing ∧
    ∀ s : String, s ≠ "active" → s ≠ "canceled" → s ≠ "incomplete_expired" →
      s ≠ "unpaid" → s ≠ "trialing" →
        getPaymentStatusFromStripe s = SubscriptionStatus.unspecified := by
  refine ⟨by decide, by decide, by decide, by decide, by decide, ?_⟩
  intro s h1 h2 h3 h4 h5
  simp [getPaymentStatusFromStripe, h1, h2, h3, h4, h5]

/-- Witness for C4 at the unrecognized processor status "past_due". -/
theorem getPaymentStatusFromStripe_total_witness :
    getPaymentStatusFromStripe "past_due" = SubscriptionStatus.unspecified :=
  getPaymentStatusFromStripe_total.2.2.2.2.2 "past_due" (by decide) (by decide)
    (by decide) (by decide) (by decide)

/-- C5: for a non-empty identifier whose fetched subscription is not already
canceled, when the cancel request itself succeeds the outcome is OK exactly
when the returned subscription status is "canceled", and INTERNAL_ERROR
otherwise. -/
theorem cancelSubscription_verifies_canceled (stripeSubID : String)
    (sub sub2 : StripeSub) (h0 : stripeSubID ≠ "")
    (h1 : sub.status ≠ "canceled") :
    (cancelSubscription stripeSubID (Except.ok sub) (Except.ok sub2)).1
      = (if sub2.status = "canceled" then Status.ok else Status.internalError) := by
  by_cases h2 : sub2.status = "canceled" <;>
    simp [cancelSubscription, h0, h1, h2]

/-- Witness for C5: an accepted-but-ineffective cancel (returned status
"active") yields INTERNAL_ERROR. -/
theorem cancelSubscription_verifies_canceled_witness :
    (cancelSubscription "sub_1" (Except.ok ⟨"sub_1", "active", []⟩)
        (Except.ok ⟨"sub_1", "active", []⟩)).1
      = (if ("active" : String) = "canceled" then Status.ok
          else Status.internalError) :=
  cancelSubscription_verifies_canceled "sub_1" ⟨"sub_1", "active", []⟩
    ⟨"sub_1", "active", []⟩ (by decide) (by decide)

end PaymentService

namespace PaymentService

/-- Looking a key up after `subStateAfterCancel` on that same key yields
"canceled" whenever the key was present. -/
theorem lookup_subStateAfterCancel (s : SubState) (id st : String)
    (h : List.lookup id s = some st) :
    List.lookup id (subStateAfterCancel s id) = some "canceled" := by
  induction s with
  | nil => simp [List.lookup] at h
  | cons p rest ih =>
    obtain ⟨k, v⟩ := p
    by_cases hp : k = id
    · subst hp
      have hmap : subStateAfterCancel ((k, v) :: rest) k
          = (k, "canceled") :: subStateAfterCancel rest k := by
        simp [subStateAfterCancel]
      rw [hmap]
      simp [List.lookup]
    · have hne : (id == k) = false := beq_eq_false_iff_ne.mpr (Ne.symm hp)
      have hmap : subStateAfterCancel ((k, v) :: rest) id
          = (k, v) :: subStateAfterCancel rest id := by
        simp [subStateAfterCancel, hp]
      rw [hmap]
      simp only [List.lookup, hne] at h ⊢
      exact ih h

/-- C3: CancelSubscription is idempotent: a fetched subscription already in
the "canceled" processor status short-circuits to OK with no cancel request;
consequently, against the processor store, whenever a first call returns OK a
second call on the same identifier also returns OK and issues no processor
cancellation request. -/
theorem cancelSubscription_idempotent :
    (∀ (stripeSubID : String) (sub : StripeSub)
        (cancelResult : Except Unit StripeSub),
        stripeSubID ≠ "" → sub.status = "canceled" →
        cancelSubscription stripeSubID (Except.ok sub) cancelResult
          = (Status.ok, [ProcCall.subGet])) ∧
    (∀ (s : SubState) (stripeSubID : String),
        (runCancel s stripeSubID).1.1 = Status.ok →
        (runCancel (runCancel s stripeSubID).2 stripeSubID).1.1 = Status.ok ∧
        ProcCall.subCancel ∉ (runCancel (runCancel s stripeSubID).2 stripeSubID).1.2) := by
  constructor
  · intro stripeSubID sub cancelResult hid hst
    simp [cancelSubscription, hid, hst]
  · intro s stripeSubID h
    by_cases hid : stripeSubID = ""
    · simp [runCancel, cancelSubscription, hid] at h
    · rcases hlk : List.lookup stripeSubID s with _ | st
      · simp [runCancel, cancelSubscription, subStateGet, hid, hlk] at h
      · by_cases hst : st = "canceled"
        · simp [runCancel, cancelSubscription, subStateGet, hid, hlk, hst]
        · have hlk2 : List.lookup stripeSubID (subStateAfterCancel s stripeSubID)
              = some "canceled" := lookup_subStateAfterCancel s stripeSubID st hlk
          simp [runCancel, cancelSubscription, subStateGet, subStateCancelResult,
            hid, hlk, hst, hlk2]

/-- Witness for C3: store with one active subscription "sub_1"; the first
call returns OK and the theorem then gives the second call's behaviour. -/
theorem cancelSubscription_idempotent_witness :
    (runCancel [("sub_1", "active")] "sub_1").1.1 = Status.ok ∧
    (runCancel (runCancel [("sub_1", "active")] "sub_1").2 "sub_1").1.1
      = Status.ok ∧
    ProcCall.subCancel ∉
      (runCancel (runCancel [("sub_1", "active")] "sub_1").2 "sub_1").1.2 := by
  refine ⟨by decide, ?_⟩
  have h := cancelSubscription_idempotent.2 [("sub_1", "active")] "sub_1" (by decide)
  exact ⟨h.1, h.2⟩

/-- C7: GetSubscription returns the zero-value record, not an error, exactly
when the identifier is empty, the processor fetch fails, or the fetched
subscription has no items; otherwise the record is populated (so not the
zero value). -/
theorem getSubscription_empty_record_iff (stripeSubID : String)
    (fetchResult : Except Unit StripeSub) (endDate : Int) :
    getSubscription stripeSubID fetchResult endDate = emptyDataSubscription
      ↔ stripeSubID = "" ∨ fetchResult = Except.error ()
          ∨ ∃ sub, fetchResult = Except.ok sub ∧ sub.items = [] := by
  by_cases hid : stripeSubID = ""
  · simp [getSubscription, hid]
  · rcases fetchResult with e | sub
    · cases e
      simp [getSubscription, hid]
    · rcases hitems : sub.items with _ | ⟨priceID, rest⟩
      · simp [getSubscription, hid, hitems]
      · simp [getSubscription, hid, hitems, emptyDataSubscription]

end PaymentService

namespace PaymentService

/-- C9: the transport GetSubscription re-encoding can fail: whenever the
orchestrator record's subscription identifier does not parse as a 64-bit
decimal integer (the empty record included), the handler returns an error
instead of a response. -/
theorem serverGetSubscription_nonnumeric_id_errors (stripeSubID : String)
    (subscription : DataSubscription)
    (h : (goParseInt subscription.id 64).2 = false) :
    serverGetSubscription stripeSubID subscription = Except.error () := by
  unfold serverGetSubscription
  rcases hgp : goParseInt subscription.id 64 with ⟨v, b⟩
  rw [hgp] at h
  simp only at h
  simp [hgp, h]

/-- Witness for C9: the empty record the orchestrator produces for an empty
identifier makes the handler error. -/
theorem serverGetSubscription_nonnumeric_id_errors_witness :
    serverGetSubscription "" (getSubscription "" (Except.error ()) 0)
      = Except.error () :=
  serverGetSubscription_nonnumeric_id_errors "" _ (by decide)

/-- C10: only the subscription-identifier parse is checked: when the record's
subscription identifier parses as a 64-bit decimal but its plan (price)
identifier is not a decimal-numeric string, the handler discards the plan
parse error and returns a success response with PlanId 0. -/
theorem serverGetSubscription_discards_planid_parse_error (stripeSubID : String)
    (subscription : DataSubscription)
    (h1 : (goParseInt subscription.id 64).2 = true)
    (h2 : goIntShape subscription.planID = false) :
    serverGetSubscription stripeSubID subscription
      = Except.ok
          { id := (goParseInt subscription.id 64).1, planId := 0,
            stripeSubscriptionId := stripeSubID, status := subscription.status,
            currentPeriodEnd := subscription.currentPeriodEnd } := by
  unfold serverGetSubscription
  rcases hgp : goParseInt subscription.id 64 with ⟨v, b⟩
  rw [hgp] at h1
  simp only at h1
  have hplan : goParseInt subscription.planID 32 = (0, false) := by
    unfold goParseInt
    rw [h2]
    simp
  simp [hgp, h1, hplan, goInt32Of]

/-- Witness for C10: a numeric subscription ID "123" with the plan identifier
"price_basic_123" yields a success response with PlanId 0. -/
theorem serverGetSubscription_discards_planid_parse_error_witness :
    serverGetSubscription "sub_x"
        ⟨"123", "price_basic_123", "sub_x", SubscriptionStatus.active, 99⟩
      = Except.ok ⟨123, 0, "sub_x", SubscriptionStatus.active, 99⟩ := by
  rw [serverGetSubscription_discards_planid_parse_error "sub_x"
    ⟨"123", "price_basic_123", "sub_x", SubscriptionStatus.active, 99⟩
    (by decide) (by decide)]
  decide

/-- C1 (failing run): customer resolution in CreateSubscription is keyed by
the stringified caller identity and records that identity as metadata on
creation, but it is NOT idempotent: starting from a processor with no
customers, the first resolution for identity 42 looks "42" up, misses, and
creates a customer under the processor-assigned ID "cus_0" with metadata
"42"; the second resolution for the same identity misses again (the
existing customer is stored under "cus_0", not "42") and creates a second
customer "cus_1" instead of reusing the first. -/
theorem getOrCreateCustomer_not_idempotent :
    getOrCreateCustomer ⟨[], 0⟩ "42"
      = (Except.ok "cus_0", ⟨[⟨"cus_0", "42"⟩], 1⟩) ∧
    getOrCreateCustomer ⟨[⟨"cus_0", "42"⟩], 1⟩ "42"
      = (Except.ok "cus_1", ⟨[⟨"cus_0", "42"⟩, ⟨"cus_1", "42"⟩], 2⟩) := by
  decide

end PaymentService
